import Mathlib

/-
Verification of the loss-layer and variable/gradient-pair core of the
nntrainer repository (files `loss_layer.cpp` and `tensor/var_grad.cpp`)
against its natural-language specification.

The embedding is shallow: tensors of the loss pipeline are batch-indexed
real-valued arrays with (batch, channel, height, width) metadata; the
var/grad container tracks shape, allocation state and initializer tags.
C++ float arithmetic is modelled over the reals.
-/

namespace Loss

/- Cost families of the loss layer, from the COST_* enum used by
`LossLayer::forwarding` / `LossLayer::backwarding`. -/
inductive CostType
  | unknown
  | msr
  | entropy
  | entropySigmoid
deriving DecidableEq

/- Activation kinds; only the distinction softmax / not-softmax is exercised
by the loss layer (`ACT_SOFTMAX` check in the COST_ENTROPY branch). -/
inductive ActivationType
  | unknown
  | tanhAct
  | sigmoidAct
  | reluAct
  | softmax
deriving DecidableEq

/- Status codes surfaced by the loss layer: ML_ERROR_NONE and
ML_ERROR_NOT_SUPPORTED are the ones its forwarding path can produce. -/
inductive MlStatus
  | ok
  | notSupported
deriving DecidableEq

/-- Modelled from the spec: the Tensor collaborator (tensor.cpp is not under
src/) is an n-dimensional array of floating-point values with a shape
descriptor (batch, channel, height, width). `data b c h w` is the element at
batch b, channel c, height h, width w; entries outside the dims are
irrelevant to every operation below. -/
structure Tensor where
  batch : ℕ
  channel : ℕ
  height : ℕ
  width : ℕ
  data : ℕ → ℕ → ℕ → ℕ → ℝ

noncomputable section

/-- Modelled from the spec: a default-constructed Tensor is the empty tensor
(all dimensions zero). -/
def Tensor.mkEmpty : Tensor := ⟨0, 0, 0, 0, fun _ _ _ _ => 0⟩

def Tensor.getWidth (t : Tensor) : ℕ := t.width

def Tensor.getBatch (t : Tensor) : ℕ := t.batch

/-- Modelled from the spec: element-wise subtraction (both the copying
`subtract` and the in-place `subtract_i`, which the functional embedding
renders identically). The result keeps the receiver's dims. -/
def Tensor.subtract (a b : Tensor) : Tensor :=
  { a with data := fun i c h w => a.data i c h w - b.data i c h w }

/-- Modelled from the spec: element-wise multiplication. -/
def Tensor.multiply (a b : Tensor) : Tensor :=
  { a with data := fun i c h w => a.data i c h w * b.data i c h w }

/-- Modelled from the spec: element-wise addition. -/
def Tensor.add (a b : Tensor) : Tensor :=
  { a with data := fun i c h w => a.data i c h w + b.data i c h w }

/-- Modelled from the spec: multiplication by a scalar. -/
def Tensor.multiplyScalar (a : Tensor) (s : ℝ) : Tensor :=
  { a with data := fun i c h w => a.data i c h w * s }

/-- Modelled from the spec: addition of a scalar. -/
def Tensor.addScalar (a : Tensor) (s : ℝ) : Tensor :=
  { a with data := fun i c h w => a.data i c h w + s }

/-- Modelled from the spec: element-wise application of a scalar function. -/
def Tensor.apply (a : Tensor) (f : ℝ → ℝ) : Tensor :=
  { a with data := fun i c h w => f (a.data i c h w) }

/-- Modelled from the spec: batch-wise sum reduction; the result has one
element per batch row holding the sum over that sample's elements. -/
def Tensor.sum_by_batch (t : Tensor) : Tensor :=
  { batch := t.batch, channel := 1, height := 1, width := 1,
    data := fun b _ _ _ =>
      ∑ c ∈ Finset.range t.channel, ∑ h ∈ Finset.range t.height,
        ∑ w ∈ Finset.range t.width, t.data b c h w }

/-- Modelled from the spec: the rectifier helper from util_func (not under
src/), `max(x, 0)`. -/
def relu (x : ℝ) : ℝ := max x 0

/-- Modelled from the spec: the logistic sigmoid helper from util_func (not
under src/). -/
def sigmoid (x : ℝ) : ℝ := 1 / (1 + Real.exp (-x))

/-- Modelled from the spec: the `logFloat` helper from util_func (not under
src/); the spec's loss formulas use the plain natural logarithm. -/
def logFloat (x : ℝ) : ℝ := Real.log x

/-- Modelled from the spec: `std::fabs`, the absolute value. -/
def fabs (x : ℝ) : ℝ := |x|

/-- The state of LossLayer that `forwarding` / `backwarding` read and write:
the configured cost and activation kinds, the saved forward input
(`input = output;` at the top of forwarding) and the recorded scalar loss. -/
structure LossLayer where
  cost : CostType
  activation_type : ActivationType
  input : Tensor
  loss : ℝ

/-- `LossLayer::updateLoss`: sums the per-batch entries of the loss tensor
`l` and records their arithmetic mean (`loss_sum / l.getBatch()`; for the
empty tensor this is the quotient 0/0, which the real-valued model evaluates
to 0 where C++ float evaluates to NaN). -/
def LossLayer.updateLoss (L : LossLayer) (l : Tensor) : LossLayer :=
  { L with loss :=
      (∑ i ∈ Finset.range l.getBatch, l.data i 0 0 0) / (l.getBatch : ℝ) }

/-- `LossLayer::forwarding(Tensor output, Tensor label, int &status)`,
embedded as a function returning the updated layer state, the returned
tensor and the status. It first saves `input = output`, then dispatches on
the cost; the COST_ENTROPY branch with a non-softmax activation returns
early with NOT_SUPPORTED and skips `updateLoss`; all other paths call
`updateLoss` and set status to ML_ERROR_NONE. -/
def LossLayer.forwarding (L0 : LossLayer) (output label : Tensor) :
    LossLayer × Tensor × MlStatus :=
  let L : LossLayer := { L0 with input := output }
  let y2 := label
  let y := output
  match L.cost with
  | CostType.msr =>
      let d := y2.subtract y
      let l := ((d.multiply d).sum_by_batch).multiplyScalar 0.5
      (L.updateLoss l, y, MlStatus.ok)
  | CostType.entropySigmoid =>
      let mid0 :=
        ((((y.apply fabs).multiplyScalar (-1)).apply Real.exp).addScalar 1).apply logFloat
      let mid := mid0.add (mid0.apply relu)
      let l :=
        (((y2.multiply y).add mid).multiplyScalar (-1 / (y2.getWidth : ℝ))).sum_by_batch
      (L.updateLoss l, y, MlStatus.ok)
  | CostType.entropy =>
      if L.activation_type = ActivationType.softmax then
        let l :=
          ((y2.multiply (y.apply logFloat)).multiplyScalar (-1 / (y2.getWidth : ℝ))).sum_by_batch
        (L.updateLoss l, y, MlStatus.ok)
      else
        (L, y, MlStatus.notSupported)
  | CostType.unknown =>
      (L.updateLoss Tensor.mkEmpty, y, MlStatus.ok)

/-- `LossLayer::backwarding(Tensor derivative, int iteration)`: returns the
gradient tensor computed from the saved `input` and the derivative (label)
argument. It has no status out-parameter; the COST_UNKNOWN / default branch
leaves `ret_derivative` default-constructed (the empty tensor). -/
def LossLayer.backwarding (L : LossLayer) (derivative : Tensor)
    (iteration : ℕ) : Tensor :=
  let y2 := derivative
  let y := L.input
  match L.cost with
  | CostType.msr => y.subtract y2
  | CostType.entropySigmoid =>
      let ys := y.apply sigmoid
      (ys.subtract y2).multiplyScalar (1 / (ys.getWidth : ℝ))
  | CostType.entropy =>
      (y.subtract y2).multiplyScalar (1 / (y.getWidth : ℝ))
  | CostType.unknown => Tensor.mkEmpty

/-- The sigmoid cross-entropy per-batch-row loss exactly as the spec's words
state it: `sum( -logit*label + log(1+exp(-|logit|)) + max(logit,0) ) /
width`, the sum running over the elements of the row. Stated over the
prediction's dims; used to compare against what the code computes. -/
def specSigmoidRow (pred label : Tensor) (b : ℕ) : ℝ :=
  (∑ c ∈ Finset.range pred.channel, ∑ h ∈ Finset.range pred.height,
    ∑ w ∈ Finset.range pred.width,
      (-(pred.data b c h w * label.data b c h w)
        + Real.log (1 + Real.exp (-|pred.data b c h w|))
        + max (pred.data b c h w) 0)) / (pred.getWidth : ℝ)

/- Concrete inputs for evaluating the embedding. -/

/-- The 2×1×1×4 prediction `[[1,2,3,4],[5,6,7,8]]` of the spec's end-to-end
MSR scenario; element (b, w) holds `4*b + w + 1`. -/
def predC2 : Tensor := ⟨2, 1, 1, 4, fun b _ _ w => 4 * (b : ℝ) + (w : ℝ) + 1⟩

/-- The matching all-ones 2×1×1×4 label `[[1,1,1,1],[1,1,1,1]]`. -/
def labelC2 : Tensor := ⟨2, 1, 1, 4, fun _ _ _ _ => 1⟩

/-- A loss layer configured with the MSR cost. -/
def layerMSR : LossLayer := ⟨CostType.msr, ActivationType.unknown, Tensor.mkEmpty, 0⟩

/-- The per-batch-row MSR loss tensor the code builds for the concrete
scenario: `(label - pred)` squared element-wise, summed per batch row, then
scaled by 0.5 — the exact chain of `LossLayer::forwarding`'s COST_MSR case. -/
def msrRowsC2 : Tensor :=
  (((labelC2.subtract predC2).multiply (labelC2.subtract predC2)).sum_by_batch).multiplyScalar 0.5

/-- A 1×1×1×1 zero logit tensor. -/
def predC1 : Tensor := ⟨1, 1, 1, 1, fun _ _ _ _ => 0⟩

/-- A 1×1×1×1 zero label tensor. -/
def labelC1 : Tensor := ⟨1, 1, 1, 1, fun _ _ _ _ => 0⟩

/-- A loss layer configured with the sigmoid cross-entropy cost. -/
def layerSig : LossLayer :=
  ⟨CostType.entropySigmoid, ActivationType.sigmoidAct, Tensor.mkEmpty, 0⟩

/-- A loss layer with the softmax cross-entropy cost and softmax activation. -/
def layerEntS : LossLayer := ⟨CostType.entropy, ActivationType.softmax, Tensor.mkEmpty, 0⟩

/-- A loss layer with the softmax cross-entropy cost but a sigmoid
activation, recorded loss 7 and a saved input. -/
def layerEntN : LossLayer := ⟨CostType.entropy, ActivationType.sigmoidAct, predC2, 7⟩

/-- A 1×1×1×1 all-ones prediction. -/
def predE : Tensor := ⟨1, 1, 1, 1, fun _ _ _ _ => 1⟩

/-- A 1×1×1×1 all-ones label. -/
def labelE : Tensor := ⟨1, 1, 1, 1, fun _ _ _ _ => 1⟩

/-- A loss layer with Unknown cost, a saved input and recorded loss 5. -/
def layerUnk : LossLayer := ⟨CostType.unknown, ActivationType.unknown, predC2, 5⟩

end

end Loss

namespace VG

/- Shape descriptor of a tensor (TensorDim): batch, channel, height, width.
A default-constructed TensorDim is all-zero. -/
structure TensorDim where
  batch : ℕ
  channel : ℕ
  height : ℕ
  width : ℕ
deriving DecidableEq

def TensorDim.size (d : TensorDim) : ℕ := d.batch * d.channel * d.height * d.width

/- Tensor initializer tags; var_grad.cpp uses the default-argument
initializer (two-argument constructor calls) and Tensor::Initializer::ZEROS. -/
inductive Initializer
  | noneInit
  | zeros
deriving DecidableEq

/-- Modelled from the spec: the aspects of the Tensor collaborator
(tensor.h/tensor.cpp are not under src/) that var_grad.cpp exercises — a
shape descriptor, an allocation state (eager vs lazy) and the initializer
it was constructed with. -/
structure Tensor where
  dim : TensorDim
  allocated : Bool
  init : Initializer
deriving DecidableEq

/-- Modelled from the spec: the default initializer of the three-argument
Tensor constructor is not ZEROS — var_grad.cpp line 29 passes
`Tensor::Initializer::ZEROS` explicitly where zero-initialization is
intended, while the two-argument call at line 61 does not. -/
def defaultInit : Initializer := Initializer.noneInit

/-- `Tensor(dim, alloc_now, init)`. -/
def Tensor.make (d : TensorDim) (allocNow : Bool) (init : Initializer) : Tensor :=
  ⟨d, allocNow, init⟩

/-- The two-argument constructor call `Tensor(dim, alloc_now)`: the
initializer takes its default value. -/
def Tensor.make2 (d : TensorDim) (allocNow : Bool) : Tensor :=
  Tensor.make d allocNow defaultInit

/-- `Tensor()`: the default-constructed empty tensor. -/
def Tensor.mkDefault : Tensor := ⟨⟨0, 0, 0, 0⟩, false, Initializer.noneInit⟩

/-- `Tensor::empty()`: a tensor is empty when its shape holds no elements. -/
def Tensor.empty (t : Tensor) : Bool := t.dim.size == 0

def Tensor.isAllocated (t : Tensor) : Bool := t.allocated

def Tensor.getDim (t : Tensor) : TensorDim := t.dim

/- The error signal raised by shape-mismatched aliasing calls. -/
inductive VgError
  | invalidArgument
deriving DecidableEq

/-- Modelled from the spec: `Tensor::makeSharedDataTensor(src)` (not under
src/) rebinds the receiver's storage to alias `src` — no copy — and fails
with InvalidArgument when the shapes differ; there is no silent reshaping.
On success the receiver keeps its shape and adopts the source's storage
(hence its allocation state and initializer). -/
def Tensor.makeSharedDataTensor (t src : Tensor) : Except VgError Tensor :=
  if src.dim = t.dim then
    Except.ok { t with allocated := src.allocated, init := src.init }
  else
    Except.error VgError.invalidArgument

/-- The Var_Grad container: the saved construction dim, the gradient-need
flag, the eager-allocation flag, the diagnostic name, and the owned value
and gradient tensors. -/
structure Var_Grad where
  dim : TensorDim
  need_gradient : Bool
  alloc_now : Bool
  name : String
  var : Tensor
  grad : Tensor
deriving DecidableEq

/-- The Var_Grad constructor: builds `var` from (dim, alloc_now, init); if
gradients are needed, builds `grad` from (dim, alloc_now, ZEROS), else
leaves `grad` default-constructed (empty). -/
def Var_Grad.construct (dim : TensorDim) (init : Initializer)
    (ng allocNow : Bool) (name : String) : Var_Grad :=
  { dim := dim, need_gradient := ng, alloc_now := allocNow, name := name,
    var := Tensor.make dim allocNow init,
    grad := if ng then Tensor.make dim allocNow Initializer.zeros
            else Tensor.mkDefault }

/-- `Var_Grad::initializeVariable(preallocated)`: no-op on an empty buffer,
otherwise `var->makeSharedDataTensor(preallocated)`; a thrown
InvalidArgument leaves the pair unchanged (returned alongside). -/
def Var_Grad.initializeVariable (vg : Var_Grad) (preallocated : Tensor) :
    Var_Grad × Option VgError :=
  if preallocated.empty then (vg, none)
  else
    match vg.var.makeSharedDataTensor preallocated with
    | Except.ok v => ({ vg with var := v }, none)
    | Except.error e => (vg, some e)

/-- `Var_Grad::initializeGradient(preallocated)`: no-op on an empty buffer,
otherwise `grad->makeSharedDataTensor(preallocated)`; no re-zeroing of the
gradient happens here. -/
def Var_Grad.initializeGradient (vg : Var_Grad) (preallocated : Tensor) :
    Var_Grad × Option VgError :=
  if preallocated.empty then (vg, none)
  else
    match vg.grad.makeSharedDataTensor preallocated with
    | Except.ok g => ({ vg with grad := g }, none)
    | Except.error e => (vg, some e)

/-- `Var_Grad::initializeShared()`: `grad->makeSharedDataTensor(*var)`. -/
def Var_Grad.initializeShared (vg : Var_Grad) : Var_Grad × Option VgError :=
  match vg.grad.makeSharedDataTensor vg.var with
  | Except.ok g => ({ vg with grad := g }, none)
  | Except.error e => (vg, some e)

/-- `Var_Grad::needsGradient(ng)`: records the flag; when turning gradients
on while `grad` is empty, replaces `grad` by `Tensor(var->getDim(),
var->isAllocated())` — the two-argument constructor, with the default
initializer. Turning gradients off leaves `grad` untouched. -/
def Var_Grad.needsGradient (vg : Var_Grad) (ng : Bool) : Var_Grad :=
  let vg2 : Var_Grad := { vg with need_gradient := ng }
  if ng && vg2.grad.empty then
    { vg2 with grad := Tensor.make2 vg2.var.getDim vg2.var.isAllocated }
  else vg2

/-- The shape half of the spec's pair invariant: a non-empty gradient tensor
has exactly the value tensor's shape. -/
def shapeInv (vg : Var_Grad) : Prop :=
  vg.grad.empty = false → vg.grad.dim = vg.var.dim

/-- The spec's full pair invariant: the shape half, plus: when gradients are
not needed the gradient tensor reports empty. -/
def fullInv (vg : Var_Grad) : Prop :=
  shapeInv vg ∧ (vg.need_gradient = false → vg.grad.empty = true)

instance (vg : Var_Grad) : Decidable (shapeInv vg) := by
  unfold shapeInv; infer_instance

instance (vg : Var_Grad) : Decidable (fullInv vg) := by
  unfold fullInv; infer_instance

/- Concrete inputs for evaluating the embedding. -/

/-- A 2×1×1×4 shape. -/
def dimC : TensorDim := ⟨2, 1, 1, 4⟩

/-- A pair built without gradient tracking, eagerly allocated: its gradient
tensor is the default-constructed empty tensor. -/
def vgNG : Var_Grad := Var_Grad.construct dimC Initializer.zeros false true "w0"

/-- A pair built with gradient tracking, eagerly allocated. -/
def vgG : Var_Grad := Var_Grad.construct dimC Initializer.noneInit true true "w1"

/-- A non-empty external buffer whose 3×1×1×4 shape mismatches `dimC`. -/
def bufMis : Tensor := Tensor.make ⟨3, 1, 1, 4⟩ true Initializer.zeros

/-- A non-empty external buffer of the matching 2×1×1×4 shape. -/
def bufOk : Tensor := Tensor.make dimC true Initializer.zeros

/-- The empty buffer. -/
def bufEmpty : Tensor := Tensor.mkDefault

end VG

open Loss in
/-- Claim C2: under the MSR cost, backward returns exactly prediction -
label element-wise (using the prediction saved by the preceding forward),
and forward records as loss the mean over batch rows of
0.5 * sum((label - prediction)^2); in particular, for prediction
[[1,2,3,4],[5,6,7,8]] and label [[1,1,1,1],[1,1,1,1]] the per-row losses
are 7 and 63, the recorded mean loss is 35 and the backward gradient is
[[0,1,2,3],[4,5,6,7]]. -/
theorem c2_msr_forward_backward :
    (∀ (L : LossLayer) (pred label : Tensor) (it : ℕ),
      L.cost = CostType.msr →
      pred.batch = label.batch → pred.channel = label.channel →
      pred.height = label.height → pred.width = label.width →
      (∀ b c h w,
        (((L.forwarding pred label).1).backwarding label it).data b c h w
          = pred.data b c h w - label.data b c h w)
      ∧ ((L.forwarding pred label).1).loss
          = (∑ b ∈ Finset.range label.batch,
              0.5 * ∑ c ∈ Finset.range label.channel,
                ∑ h ∈ Finset.range label.height,
                  ∑ w ∈ Finset.range label.width,
                    (label.data b c h w - pred.data b c h w) ^ 2)
            / (label.batch : ℝ))
    ∧ msrRowsC2.data 0 0 0 0 = 7
    ∧ msrRowsC2.data 1 0 0 0 = 63
    ∧ (layerMSR.forwarding predC2 labelC2).1.loss = 35
    ∧ (∀ b w,
        ((((layerMSR.forwarding predC2 labelC2).1).backwarding labelC2 0).data b 0 0 w)
          = 4 * (b : ℝ) + (w : ℝ)) := by
  refine ⟨?_, ?_, ?_, ?_, ?_⟩
  · intro L pred label it hc hb hch hh hw
    constructor
    · intro b c h w
      simp [LossLayer.forwarding, hc, LossLayer.updateLoss, LossLayer.backwarding,
        Tensor.subtract]
    · simp only [LossLayer.forwarding, hc, LossLayer.updateLoss, Tensor.subtract,
        Tensor.multiply, Tensor.multiplyScalar, Tensor.sum_by_batch, Tensor.getBatch]
      congr 1
      refine Finset.sum_congr rfl fun b _ => ?_
      rw [mul_comm]
      congr 1
      refine Finset.sum_congr rfl fun c _ => ?_
      refine Finset.sum_congr rfl fun h _ => ?_
      refine Finset.sum_congr rfl fun w _ => ?_
      ring
  · simp [msrRowsC2, Tensor.subtract, Tensor.multiply, Tensor.multiplyScalar,
      Tensor.sum_by_batch, predC2, labelC2, Finset.sum_range_succ]
    norm_num
  · simp [msrRowsC2, Tensor.subtract, Tensor.multiply, Tensor.multiplyScalar,
      Tensor.sum_by_batch, predC2, labelC2, Finset.sum_range_succ]
    norm_num
  · simp [LossLayer.forwarding, layerMSR, LossLayer.updateLoss, Tensor.subtract,
      Tensor.multiply, Tensor.multiplyScalar, Tensor.sum_by_batch, Tensor.getBatch,
      predC2, labelC2, Finset.sum_range_succ]
    norm_num
  · intro b w
    simp [LossLayer.forwarding, layerMSR, LossLayer.updateLoss, LossLayer.backwarding,
      Tensor.subtract, predC2, labelC2]

open Loss in
/-- Witness for claim C2: the general MSR theorem applied to the concrete
layer, prediction and label of the spec's end-to-end scenario. -/
theorem c2_msr_forward_backward_witness :
    Loss.layerMSR.cost = Loss.CostType.msr
    ∧ (((layerMSR.forwarding predC2 labelC2).1).backwarding labelC2 0).data 1 0 0 3
        = predC2.data 1 0 0 3 - labelC2.data 1 0 0 3 :=
  ⟨rfl, (c2_msr_forward_backward.1 layerMSR predC2 labelC2 0 rfl rfl rfl rfl rfl).1 1 0 0 3⟩

open Loss in
/-- Claim C5: forward under the softmax cross-entropy cost fails with
NotSupported exactly when the activation is not softmax; with the softmax
activation it succeeds and records the mean over batch rows of the per-row
loss -sum(label * log(prediction)) / width. -/
theorem c5_entropy_softmax_guard (L : LossLayer) (pred label : Tensor)
    (hc : L.cost = CostType.entropy) :
    ((L.forwarding pred label).2.2 = MlStatus.notSupported ↔
      L.activation_type ≠ ActivationType.softmax)
    ∧ (L.activation_type = ActivationType.softmax →
        (L.forwarding pred label).2.2 = MlStatus.ok
        ∧ (L.forwarding pred label).1.loss
            = (∑ b ∈ Finset.range label.batch,
                -(∑ c ∈ Finset.range label.channel, ∑ h ∈ Finset.range label.height,
                    ∑ w ∈ Finset.range label.width,
                      label.data b c h w * Real.log (pred.data b c h w))
                  / (label.getWidth : ℝ)) / (label.batch : ℝ)) := by
  constructor
  · by_cases hA : L.activation_type = ActivationType.softmax <;>
      simp [LossLayer.forwarding, hc, hA]
  · intro hA
    constructor
    · simp [LossLayer.forwarding, hc, hA]
    · simp only [LossLayer.forwarding, hc, hA, if_pos, LossLayer.updateLoss,
        Tensor.multiply, Tensor.apply, Tensor.multiplyScalar, Tensor.sum_by_batch,
        Tensor.getBatch, Tensor.getWidth, logFloat]
      congr 1
      refine Finset.sum_congr rfl fun b _ => ?_
      simp only [← Finset.sum_mul]
      ring

open Loss in
/-- Witness for claim C5: with the softmax activation configured, the
concrete forward call succeeds, and its status is NotSupported exactly when
the activation differs from softmax (here it does not). -/
theorem c5_entropy_softmax_guard_witness :
    Loss.layerEntS.cost = Loss.CostType.entropy
    ∧ (layerEntS.forwarding predE labelE).2.2 = MlStatus.ok
    ∧ ((layerEntS.forwarding predE labelE).2.2 = MlStatus.notSupported ↔
        layerEntS.activation_type ≠ ActivationType.softmax) :=
  ⟨rfl, ((c5_entropy_softmax_guard layerEntS predE labelE rfl).2 rfl).1,
    (c5_entropy_softmax_guard layerEntS predE labelE rfl).1⟩

open Loss in
/-- Claim C6: backward under the softmax cross-entropy cost, called after
the matching forward, returns (savedPrediction - label) / width element-wise,
where width is the prediction's feature-axis size — equal, for matching
shapes, to the label width the forward call divided by. -/
theorem c6_entropy_backward (L : LossLayer) (pred label : Tensor) (it : ℕ)
    (hc : L.cost = CostType.entropy) (hw : label.getWidth = pred.getWidth) :
    (∀ b c h w,
      (((L.forwarding pred label).1).backwarding label it).data b c h w
        = (pred.data b c h w - label.data b c h w) / (pred.getWidth : ℝ))
    ∧ pred.getWidth = label.getWidth := by
  refine ⟨fun b c h w => ?_, hw.symm⟩
  by_cases hA : L.activation_type = ActivationType.softmax <;>
    simp [LossLayer.forwarding, LossLayer.backwarding, LossLayer.updateLoss,
      hc, hA, Tensor.subtract, Tensor.multiplyScalar, Tensor.getWidth, div_eq_mul_inv]

open Loss in
/-- Witness for claim C6: the backward formula at the concrete softmax
cross-entropy layer, prediction and label, evaluated at element (0,0,0,0). -/
theorem c6_entropy_backward_witness :
    Loss.labelE.getWidth = Loss.predE.getWidth
    ∧ (((layerEntS.forwarding predE labelE).1).backwarding labelE 0).data 0 0 0 0
        = (predE.data 0 0 0 0 - labelE.data 0 0 0 0) / (predE.getWidth : ℝ) :=
  ⟨rfl, (c6_entropy_backward layerEntS predE labelE 0 rfl rfl).1 0 0 0 0⟩

open Loss in
/-- Claim C10: when forward fails with NotSupported because the softmax
cross-entropy cost meets a non-softmax activation, the recorded loss keeps
its prior value (updateLoss is never reached) but the saved prediction has
already been overwritten with the failing call's prediction tensor. -/
theorem c10_failed_forward_not_atomic (L : LossLayer) (pred label : Tensor)
    (hc : L.cost = CostType.entropy)
    (hA : L.activation_type ≠ ActivationType.softmax) :
    (L.forwarding pred label).2.2 = MlStatus.notSupported
    ∧ (L.forwarding pred label).1.loss = L.loss
    ∧ (L.forwarding pred label).1.input = pred := by
  refine ⟨?_, ?_, ?_⟩ <;> simp [LossLayer.forwarding, hc, hA]

open Loss in
/-- Witness for claim C10: the concrete failing forward call keeps the
previously recorded loss 7 yet replaces the saved prediction. -/
theorem c10_failed_forward_not_atomic_witness :
    Loss.layerEntN.cost = Loss.CostType.entropy
    ∧ Loss.layerEntN.activation_type ≠ Loss.ActivationType.softmax
    ∧ (layerEntN.forwarding predE labelE).2.2 = MlStatus.notSupported
    ∧ (layerEntN.forwarding predE labelE).1.loss = 7
    ∧ (layerEntN.forwarding predE labelE).1.input = predE :=
  ⟨rfl, by decide,
    (c10_failed_forward_not_atomic layerEntN predE labelE rfl (by decide)).1,
    (c10_failed_forward_not_atomic layerEntN predE labelE rfl (by decide)).2.1,
    (c10_failed_forward_not_atomic layerEntN predE labelE rfl (by decide)).2.2⟩

open Loss in
/-- Counterexample for claim C7: forward with the Unknown cost still calls
updateLoss on the default-constructed empty loss tensor, so a previously
recorded loss of 5 is overwritten (with the quotient 0/0: NaN in C++ float
arithmetic, 0 in this real-valued model) — the recorded loss does not keep
its prior value. -/
theorem c7_unknown_forward_counterexample :
    (layerUnk.forwarding predC2 labelC2).1.loss = 0
    ∧ Loss.layerUnk.loss = 5
    ∧ (0 : ℝ) ≠ 5 := by
  refine ⟨?_, rfl, by norm_num⟩
  simp [LossLayer.forwarding, layerUnk, LossLayer.updateLoss, Tensor.mkEmpty,
    Tensor.getBatch]

open Loss in
/-- Claim C7 as amended: forward with the Unknown cost returns the
prediction unchanged with a success status, but updateLoss is still invoked
with the empty default loss tensor, overwriting the recorded loss with the
quotient 0/0 (0 in this real-valued model, NaN in C++ float arithmetic). -/
theorem c7_unknown_forward (L : LossLayer) (pred label : Tensor)
    (hc : L.cost = CostType.unknown) :
    (L.forwarding pred label).2.1 = pred
    ∧ (L.forwarding pred label).2.2 = MlStatus.ok
    ∧ (L.forwarding pred label).1.loss = 0
    ∧ (L.forwarding pred label).1.input = pred := by
  refine ⟨?_, ?_, ?_, ?_⟩ <;>
    simp [LossLayer.forwarding, hc, LossLayer.updateLoss, Tensor.mkEmpty,
      Tensor.getBatch]

open Loss in
/-- Witness for claim C7 as amended: the concrete Unknown-cost forward call. -/
theorem c7_unknown_forward_witness :
    Loss.layerUnk.cost = Loss.CostType.unknown
    ∧ (layerUnk.forwarding predC2 labelC2).2.1 = predC2
    ∧ (layerUnk.forwarding predC2 labelC2).2.2 = MlStatus.ok
    ∧ (layerUnk.forwarding predC2 labelC2).1.loss = 0 :=
  ⟨rfl, (c7_unknown_forward layerUnk predC2 labelC2 rfl).1,
    (c7_unknown_forward layerUnk predC2 labelC2 rfl).2.1,
    (c7_unknown_forward layerUnk predC2 labelC2 rfl).2.2.1⟩

open Loss in
/-- Counterexample for claim C4: backward under the Unknown cost does not
fail — `backwarding` has no status out-parameter at all — it returns the
default-constructed empty tensor (all dimensions zero). -/
theorem c4_unknown_backward_counterexample :
    layerUnk.backwarding labelC2 0 = Tensor.mkEmpty
    ∧ Loss.Tensor.mkEmpty.getBatch = 0
    ∧ Loss.Tensor.mkEmpty.getWidth = 0 :=
  ⟨rfl, rfl, rfl⟩

open Loss in
/-- Claim C4 as amended: for every call to backward when the cost is
Unknown, the result is the empty default-constructed gradient tensor; the
backward entry point has no failure channel, so no NotSupported error is
(or can be) reported. -/
theorem c4_unknown_backward (L : LossLayer) (d : Tensor) (it : ℕ)
    (hc : L.cost = CostType.unknown) :
    L.backwarding d it = Tensor.mkEmpty := by
  simp [LossLayer.backwarding, hc]

open Loss in
/-- Witness for claim C4 as amended: the concrete Unknown-cost backward
call. -/
theorem c4_unknown_backward_witness :
    Loss.layerUnk.cost = Loss.CostType.unknown
    ∧ layerUnk.backwarding predC2 1 = Tensor.mkEmpty :=
  ⟨rfl, c4_unknown_backward layerUnk predC2 1 rfl⟩

open Loss in
/-- Claim C1 fails on the code: evaluating the sigmoid cross-entropy forward
pass at the zero logit and zero label of shape 1×1×1×1, the code records the
loss -(2·log 2): the code adds `mid_term.apply(relu)` — the rectifier of the
mid term itself, which is nonnegative and so doubles it — instead of the
rectifier of the logit that its own comment (`log(1 + exp(-abs(y))) +
max(y, 0)`) calls for, and it then negates the whole row. The spec's row
formula gives log 2 at the same input, and the two values differ. -/
theorem c1_sigmoid_entropy_divergence :
    (layerSig.forwarding predC1 labelC1).1.loss = -(2 * Real.log 2)
    ∧ specSigmoidRow predC1 labelC1 0 = Real.log 2
    ∧ -(2 * Real.log 2) ≠ Real.log 2 := by
  have hlog : (0 : ℝ) ≤ Real.log 2 := Real.log_nonneg one_le_two
  refine ⟨?_, ?_, ?_⟩
  · simp [LossLayer.forwarding, layerSig, LossLayer.updateLoss, Tensor.apply,
      Tensor.add, Tensor.addScalar, Tensor.multiply, Tensor.multiplyScalar,
      Tensor.sum_by_batch, Tensor.getBatch, Tensor.getWidth, predC1, labelC1,
      fabs, relu, logFloat, Real.exp_zero]
    have h2 : (1 : ℝ) + 1 = 2 := by norm_num
    rw [h2, sup_eq_left.mpr hlog]
    ring
  · simp [specSigmoidRow, predC1, labelC1, Tensor.getWidth, Real.exp_zero]
    norm_num
  · have hpos : (0 : ℝ) < Real.log 2 := Real.log_pos (by norm_num)
    intro h
    nlinarith

open VG in
/-- Counterexample for claim C3: on a pair whose gradient is currently
empty, setNeedsGradient(true) builds the new gradient tensor with the
two-argument Tensor constructor, i.e. with the default initializer, not the
explicit ZEROS initializer the pair constructor uses — the resulting
gradient is not zero-initialized, although its shape and allocation state
do match the value tensor's. -/
theorem c3_needs_gradient_counterexample :
    VG.vgNG.grad.empty = true
    ∧ (vgNG.needsGradient true).grad.init ≠ Initializer.zeros
    ∧ (vgNG.needsGradient true).grad.dim = vgNG.var.dim
    ∧ (vgNG.needsGradient true).grad.allocated = vgNG.var.isAllocated := by
  decide

open VG in
/-- Claim C3 as amended: setNeedsGradient(true) on a pair whose gradient is
currently empty produces a gradient tensor whose allocation state equals the
value tensor's current allocation state and whose shape equals the value
tensor's shape; the tensor is created with the constructor's default
initializer rather than an explicit zero initializer. -/
theorem c3_needs_gradient_allocation (vg : VG.Var_Grad)
    (h : vg.grad.empty = true) :
    (vg.needsGradient true).grad.dim = vg.var.dim
    ∧ (vg.needsGradient true).grad.allocated = vg.var.isAllocated
    ∧ (vg.needsGradient true).grad.init = VG.defaultInit
    ∧ (vg.needsGradient true).need_gradient = true := by
  simp [VG.Var_Grad.needsGradient, h, VG.Tensor.make2, VG.Tensor.make,
    VG.Tensor.getDim, VG.Tensor.isAllocated]

open VG in
/-- Witness for claim C3 as amended: the concrete gradient-less pair. -/
theorem c3_needs_gradient_allocation_witness :
    VG.vgNG.grad.empty = true
    ∧ (vgNG.needsGradient true).grad.dim = vgNG.var.dim
    ∧ (vgNG.needsGradient true).grad.allocated = vgNG.var.isAllocated
    ∧ (vgNG.needsGradient true).grad.init = VG.defaultInit :=
  ⟨by decide, (c3_needs_gradient_allocation vgNG (by decide)).1,
    (c3_needs_gradient_allocation vgNG (by decide)).2.1,
    (c3_needs_gradient_allocation vgNG (by decide)).2.2.1⟩

open VG in
/-- Claim C8: initializeVariable and initializeGradient are no-ops on an
empty buffer; on a non-empty buffer whose shape differs from the respective
tensor's shape they fail with InvalidArgument and return the pair
unmodified. -/
theorem c8_initialize_external_buffer (vg : VG.Var_Grad) (buf : VG.Tensor) :
    (buf.empty = true →
      vg.initializeVariable buf = (vg, none)
      ∧ vg.initializeGradient buf = (vg, none))
    ∧ (buf.empty = false → buf.dim ≠ vg.var.dim →
        vg.initializeVariable buf = (vg, some VgError.invalidArgument))
    ∧ (buf.empty = false → buf.dim ≠ vg.grad.dim →
        vg.initializeGradient buf = (vg, some VgError.invalidArgument)) := by
  refine ⟨fun hb => ⟨?_, ?_⟩, fun hb hd => ?_, fun hb hd => ?_⟩
  · simp [VG.Var_Grad.initializeVariable, hb]
  · simp [VG.Var_Grad.initializeGradient, hb]
  · simp [VG.Var_Grad.initializeVariable, hb, VG.Tensor.makeSharedDataTensor, hd]
  · simp [VG.Var_Grad.initializeGradient, hb, VG.Tensor.makeSharedDataTensor, hd]

open VG in
/-- Witness for claim C8: a shape-mismatched non-empty buffer is rejected
with InvalidArgument and the pair is returned unchanged; the empty buffer is
a no-op. -/
theorem c8_initialize_external_buffer_witness :
    VG.bufMis.empty = false
    ∧ vgNG.initializeVariable bufMis = (vgNG, some VgError.invalidArgument)
    ∧ vgNG.initializeVariable bufEmpty = (vgNG, none) :=
  ⟨by decide, (c8_initialize_external_buffer vgNG bufMis).2.1 (by decide) (by decide),
    ((c8_initialize_external_buffer vgNG bufEmpty).1 (by decide)).1⟩

open VG in
/-- Counterexample for claim C9: a pair constructed with gradient tracking
satisfies the full invariant, but setNeedsGradient(false) records the flag
without clearing the existing gradient tensor, leaving a pair whose
needsGradient is false while its gradient tensor is non-empty — the second
half of the invariant is violated. -/
theorem c9_invariant_counterexample :
    fullInv VG.vgG
    ∧ ¬ fullInv (vgG.needsGradient false)
    ∧ (vgG.needsGradient false).need_gradient = false
    ∧ (vgG.needsGradient false).grad.empty = false := by
  decide

open VG in
/-- Claim C9 as amended: construction establishes the full invariant (the
gradient, when present, shares the value's shape; with needsGradient false
the gradient is empty), and every operation preserves the shape half of the
invariant; setNeedsGradient(false), however, leaves an existing non-empty
gradient tensor in place, so the emptiness half is not preserved. -/
theorem c9_shape_invariant_preserved (dim : VG.TensorDim) (init : VG.Initializer)
    (ng an : Bool) (nm : String) (vg : VG.Var_Grad) (buf : VG.Tensor) (b : Bool)
    (hs : VG.shapeInv vg) :
    fullInv (Var_Grad.construct dim init ng an nm)
    ∧ shapeInv (vg.initializeVariable buf).1
    ∧ shapeInv (vg.initializeGradient buf).1
    ∧ shapeInv vg.initializeShared.1
    ∧ shapeInv (vg.needsGradient b) := by
  refine ⟨?_, ?_, ?_, ?_, ?_⟩
  · cases ng <;>
      simp [VG.Var_Grad.construct, fullInv, shapeInv, VG.Tensor.make,
        VG.Tensor.mkDefault, VG.Tensor.empty, VG.TensorDim.size]
  · by_cases hb : buf.empty
    · simpa [VG.Var_Grad.initializeVariable, hb] using hs
    · by_cases hd : buf.dim = vg.var.dim
      · intro hge
        simp only [VG.Var_Grad.initializeVariable, hb, VG.Tensor.makeSharedDataTensor,
          hd, if_true, Bool.false_eq_true, if_false] at hge ⊢
        simpa using hs hge
      · simpa [VG.Var_Grad.initializeVariable, hb, VG.Tensor.makeSharedDataTensor,
          hd] using hs
  · by_cases hb : buf.empty
    · simpa [VG.Var_Grad.initializeGradient, hb] using hs
    · by_cases hd : buf.dim = vg.grad.dim
      · intro hge
        simp only [VG.Var_Grad.initializeGradient, hb, VG.Tensor.makeSharedDataTensor,
          hd, if_true, Bool.false_eq_true, if_false] at hge ⊢
        simp only [VG.Tensor.empty] at hge
        exact hs hge
      · simpa [VG.Var_Grad.initializeGradient, hb, VG.Tensor.makeSharedDataTensor,
          hd] using hs
  · by_cases hd : vg.var.dim = vg.grad.dim
    · intro hge
      simp only [VG.Var_Grad.initializeShared, VG.Tensor.makeSharedDataTensor, hd,
        if_true] at hge ⊢
    · simpa [VG.Var_Grad.initializeShared, VG.Tensor.makeSharedDataTensor, hd] using hs
  · intro hge
    unfold VG.Var_Grad.needsGradient at hge ⊢
    by_cases hcond : (b && vg.grad.empty) = true
    · rw [if_pos hcond] at hge ⊢
      simp [VG.Tensor.make2, VG.Tensor.make, VG.Tensor.getDim]
    · rw [if_neg hcond] at hge ⊢
      exact hs hge

open VG in
/-- Witness for claim C9 as amended: the preserved shape invariant at a
concrete pair, buffer and flag. -/
theorem c9_shape_invariant_preserved_witness :
    VG.shapeInv VG.vgG
    ∧ fullInv (Var_Grad.construct VG.dimC Initializer.zeros true true "n0")
    ∧ shapeInv (vgG.initializeVariable bufOk).1
    ∧ shapeInv (vgG.needsGradient false) :=
  ⟨by decide,
    (c9_shape_invariant_preserved dimC Initializer.zeros true true "n0" vgG bufOk false
      (by decide)).1,
    (c9_shape_invariant_preserved dimC Initializer.zeros true true "n0" vgG bufOk false
      (by decide)).2.1,
    (c9_shape_invariant_preserved dimC Initializer.zeros true true "n0" vgG bufOk false
      (by decide)).2.2.2.2⟩
